import Mathlib

/-!
Shallow embedding of the social-media backend in `src/main.py`
(FastAPI + SQL tables `users` and `posts` + external object-storage and
chat-completion clients), together with proofs of the behavioural
properties of its HTTP surface.

The database is modelled as explicit state (`DBState`): the two tables
are lists of rows, and the primary-key autoincrement counters and the
server clock (for the `created_at` column default) are carried
alongside.  Each route handler becomes a pure function from the request
data (and, for the two external-API endpoints, from the external
system's behaviour given as data) to a response and the next state.
JSON responses are association lists of `JVal`, and FastAPI's
`response_model` filtering is the function `applyResponseModel`.
-/

/-- A JSON value as it appears in this API's responses. -/
inductive JVal where
  | str : String → JVal
  | num : Nat → JVal
deriving Repr, DecidableEq

/-- A JSON object: an association list from keys to values. -/
abbrev JDict := List (String × JVal)

/-- An HTTP error response, as raised by `HTTPException(status_code, detail)`. -/
structure HErr where
  status : Nat
  detail : String
deriving Repr, DecidableEq

/-- A row of the `users` table (columns from `src/main.py` lines 36-43). -/
structure UserRow where
  id : Nat
  username : String
  email : String
  hashed_password : String
deriving Repr, DecidableEq

/-- A row of the `posts` table (columns from `src/main.py` lines 45-53);
`image_url` is nullable and `created_at` is a server-assigned timestamp. -/
structure PostRow where
  id : Nat
  author_id : Nat
  content : String
  image_url : Option String
  created_at : Nat
deriving Repr, DecidableEq

/-- The database state: the two tables, their autoincrement counters for
the `id` primary keys, and the server clock used for the `created_at`
column default `func.now()`. -/
@[ext] structure DBState where
  users : List UserRow
  posts : List PostRow
  nextUserId : Nat
  nextPostId : Nat
  now : Nat
deriving Repr, DecidableEq

/-- Request body of `POST /users/` and `PUT /users/{id}` (pydantic `UserCreate`). -/
structure UserCreate where
  username : String
  email : String
  password : String
deriving Repr, DecidableEq

/-- Request body of `POST /posts/` and `PUT /posts/{id}` (pydantic `PostCreate`). -/
structure PostCreate where
  content : String
  image_url : Option String
  author_id : Nat
deriving Repr, DecidableEq

/-- The fields of the pydantic response model `User` (= `UserBase` fields
`username`, `email` plus `id`); the `password` of `UserCreate` is not among them. -/
def userModelFields : List String := ["username", "email", "id"]

/-- FastAPI `response_model` filtering: the returned object keeps exactly
the model's fields, each taken from the handler's raw return value. -/
def applyResponseModel (fields : List String) (d : JDict) : JDict :=
  fields.filterMap (fun k => (d.lookup k).map (fun v => (k, v)))

/-- The raw dict returned by the `create_user`/`update_user` handler bodies:
`{**user.dict(), "id": i}` — all `UserCreate` fields plus the id. -/
def userCreateRawDict (u : UserCreate) (i : Nat) : JDict :=
  [("username", JVal.str u.username), ("email", JVal.str u.email),
   ("password", JVal.str u.password), ("id", JVal.num i)]

/-- A `users` row as a dict, for handlers that return a fetched row. -/
def userRowDict (r : UserRow) : JDict :=
  [("id", JVal.num r.id), ("username", JVal.str r.username),
   ("email", JVal.str r.email), ("hashed_password", JVal.str r.hashed_password)]

/-- `users.insert().values(...)` executed against the database: fails on a
unique-constraint violation on `username` or `email`, otherwise appends a
row with the next autoincrement id and returns that id (`last_record_id`). -/
def usersInsert (s : DBState) (username email pw : String) :
    Except String (Nat × DBState) :=
  if s.users.any (fun r => r.username == username || r.email == email) then
    Except.error "UNIQUE constraint failed"
  else
    Except.ok (s.nextUserId,
      { s with users := s.users ++ [⟨s.nextUserId, username, email, pw⟩],
               nextUserId := s.nextUserId + 1 })

/-- Handler of `POST /users/` (`create_user`, `src/main.py` lines 132-137):
inserts the row, then returns `{**user.dict(), "id": last_record_id}`
filtered through `response_model=User`.  A database error propagates and
the state is then unchanged. -/
def create_user (s : DBState) (u : UserCreate) : Except String JDict × DBState :=
  match usersInsert s u.username u.email u.password with
  | Except.error e => (Except.error e, s)
  | Except.ok (i, s₂) =>
      (Except.ok (applyResponseModel userModelFields (userCreateRawDict u i)), s₂)

/-- Handler of `GET /users/{user_id}` (`read_user`, lines 144-150):
`fetch_one` on `select().where(users.c.id == user_id)`; 404 when no row. -/
def read_user (s : DBState) (uid : Nat) : Except HErr JDict :=
  match s.users.find? (fun r => r.id == uid) with
  | none => Except.error ⟨404, "User not found"⟩
  | some r => Except.ok (applyResponseModel userModelFields (userRowDict r))

/-- `users.update().where(users.c.id == user_id).values(...)`: every row
whose id matches gets the new column values; fails when the new unique
`username`/`email` collide with a different row. -/
def usersUpdate (s : DBState) (uid : Nat) (username email pw : String) :
    Except String DBState :=
  if s.users.any (fun r => !(r.id == uid) && (r.username == username || r.email == email)) then
    Except.error "UNIQUE constraint failed"
  else
    Except.ok { s with users := s.users.map (fun r =>
      if r.id == uid then { r with username := username, email := email,
                                   hashed_password := pw } else r) }

/-- Handler of `PUT /users/{user_id}` (`update_user`, lines 152-157):
runs the update (no existence check) and returns `{**user.dict(), "id": user_id}`
through `response_model=User`. -/
def update_user (s : DBState) (uid : Nat) (u : UserCreate) :
    Except String JDict × DBState :=
  match usersUpdate s uid u.username u.email u.password with
  | Except.error e => (Except.error e, s)
  | Except.ok s₂ =>
      (Except.ok (applyResponseModel userModelFields (userCreateRawDict u uid)), s₂)

/-- Handler of `DELETE /users/{user_id}` (`delete_user`, lines 159-165):
executes the delete, then raises 404 when the reported row count is zero,
else returns the confirmation message. -/
def delete_user (s : DBState) (uid : Nat) : Except HErr String × DBState :=
  let deleted_rows := s.users.countP (fun r => r.id == uid)
  let s₂ := { s with users := s.users.filter (fun r => !(r.id == uid)) }
  if deleted_rows == 0 then (Except.error ⟨404, "User not found"⟩, s₂)
  else (Except.ok "User deleted successfully", s₂)

/-- Handler of `POST /posts/` (`create_post`, lines 169-174): inserts a row
with the next autoincrement id, the request fields and the server-default
`created_at`, then returns `fetch_one` on the new id (an `Option` row). -/
def create_post (s : DBState) (p : PostCreate) : Option PostRow × DBState :=
  let row : PostRow := ⟨s.nextPostId, p.author_id, p.content, p.image_url, s.now⟩
  let s₂ := { s with posts := s.posts ++ [row], nextPostId := s.nextPostId + 1 }
  (s₂.posts.find? (fun r => r.id == s.nextPostId), s₂)

/-- Handler of `GET /posts/{post_id}` (`read_post`, lines 181-187). -/
def read_post (s : DBState) (pid : Nat) : Except HErr PostRow :=
  match s.posts.find? (fun r => r.id == pid) with
  | none => Except.error ⟨404, "Post not found"⟩
  | some r => Except.ok r

/-- Handler of `PUT /posts/{post_id}` (`update_post`, lines 189-194):
runs `posts.update().where(posts.c.id == post_id).values(author_id, content,
image_url)` — every row whose id matches gets the new values, `id` and
`created_at` untouched — then returns `fetch_one` on that id, which is
`None` when no such row exists. -/
def update_post (s : DBState) (pid : Nat) (p : PostCreate) :
    Option PostRow × DBState :=
  let posts₂ := s.posts.map (fun r =>
    if r.id == pid then
      { r with author_id := p.author_id, content := p.content,
               image_url := p.image_url }
    else r)
  (posts₂.find? (fun r => r.id == pid), { s with posts := posts₂ })

/-- Handler of `DELETE /posts/{post_id}` (`delete_post`, lines 196-202). -/
def delete_post (s : DBState) (pid : Nat) : Except HErr String × DBState :=
  let deleted_rows := s.posts.countP (fun r => r.id == pid)
  let s₂ := { s with posts := s.posts.filter (fun r => !(r.id == pid)) }
  if deleted_rows == 0 then (Except.error ⟨404, "Post not found"⟩, s₂)
  else (Except.ok "Post deleted successfully", s₂)

/-- Request body of `POST /ai/draft_post/` (pydantic `AIDraftRequest`;
`max_length` defaults to 200 at parse time). -/
structure AIDraftRequest where
  prompt : String
  max_length : Nat
deriving Repr, DecidableEq

/-- One choice of the external completion API's reply; `content` is the
`message.content` field read by the handler. -/
structure Choice where
  content : String
deriving Repr, DecidableEq

/-- The two-message prompt the handler forwards to the completion API
(role, content): the fixed system instruction and the user instruction
interpolating `prompt` and `max_length` (lines 211-214). -/
def draftMessages (req : AIDraftRequest) : List (String × String) :=
  [("system",
    "You are a helpful assistant for drafting social media posts. Be concise and engaging."),
   ("user",
    "Draft a social media post based on this idea: " ++ req.prompt ++
    ". Keep it under " ++ toString req.max_length ++
    " characters. Start directly with the post content, no conversational filler.")]

/-- Handler of `POST /ai/draft_post/` (`draft_post_with_ai`, lines 206-219),
with the external completion API given as a function from the forwarded
messages to the reply's choices list: the handler calls it on
`draftMessages req` and returns
`{"draft": completion.choices[0].message.content}`; when the choices list
is empty, the `choices[0]` IndexError is caught by the `except Exception`
clause and mapped to a 500 with its message. -/
def draft_post_with_ai (req : AIDraftRequest)
    (api : List (String × String) → List Choice) : Except HErr JDict :=
  match api (draftMessages req) with
  | [] => Except.error ⟨500, "AI drafting failed: list index out of range"⟩
  | c :: _ => Except.ok [("draft", JVal.str c.content)]

/-- Configuration of the object-storage adapter: the bucket
(`R2_BUCKET_NAME`) and the public base URL (`R2_PUBLIC_URL`). -/
structure R2Config where
  bucket : String
  publicUrl : String
deriving Repr, DecidableEq

/-- An object stored by `put_object`: bucket, key, body bytes, content type. -/
structure R2Object where
  bucket : String
  key : String
  body : List Nat
  contentType : String
deriving Repr, DecidableEq

/-- Outcome of the storage client's `put_object` call: success, a
`NoCredentialsError`, or any other exception with its message. -/
inductive PutOutcome where
  | success : PutOutcome
  | noCredentials : PutOutcome
  | failure : String → PutOutcome
deriving Repr, DecidableEq

/-- Handler of `POST /upload-image/` (`upload_image_to_r2`, lines 223-240),
given the behaviour of the `put_object` call as data.  On success the
object is written to the configured bucket under a key equal to the
uploaded filename and the response carries the filename and
`R2_PUBLIC_URL + "/" + filename`; `NoCredentialsError` and other
exceptions map to distinct 500 responses and leave the store unchanged. -/
def upload_image_to_r2 (cfg : R2Config) (store : List R2Object)
    (filename : String) (body : List Nat) (contentType : String)
    (outcome : PutOutcome) : Except HErr JDict × List R2Object :=
  match outcome with
  | PutOutcome.success =>
      (Except.ok [("filename", JVal.str filename),
                  ("url", JVal.str (cfg.publicUrl ++ "/" ++ filename))],
       store ++ [⟨cfg.bucket, filename, body, contentType⟩])
  | PutOutcome.noCredentials =>
      (Except.error ⟨500, "R2 credentials not available."⟩, store)
  | PutOutcome.failure msg =>
      (Except.error ⟨500, "Failed to upload image: " ++ msg⟩, store)

/-! ### Helper lemmas -/

/-- Evaluation of the `User` response model on a fetched `users` row. -/
theorem applyUserModel_row (r : UserRow) :
    applyResponseModel userModelFields (userRowDict r) =
      [("username", JVal.str r.username), ("email", JVal.str r.email),
       ("id", JVal.num r.id)] := rfl

/-- Evaluation of the `User` response model on the raw create/update dict:
the `password` entry is dropped. -/
theorem applyUserModel_raw (u : UserCreate) (i : Nat) :
    applyResponseModel userModelFields (userCreateRawDict u i) =
      [("username", JVal.str u.username), ("email", JVal.str u.email),
       ("id", JVal.num i)] := rfl

/-! ### Claims -/

/-- C9: for every prompt and max_length and every external completion API
whose reply to the forwarded messages has a first choice, `POST
/ai/draft_post/` returns under key `draft` that choice's text verbatim —
in particular it is not truncated to max_length, which reaches the API
only inside the user message built by `draftMessages`. -/
theorem draft_post_returns_first_choice_verbatim (prompt : String)
    (maxLength : Nat) (api : List (String × String) → List Choice)
    (c : Choice) (rest : List Choice)
    (h : api (draftMessages ⟨prompt, maxLength⟩) = c :: rest) :
    draft_post_with_ai ⟨prompt, maxLength⟩ api =
      Except.ok [("draft", JVal.str c.content)] := by
  simp [draft_post_with_ai, h]

/-- Witness for C9: a reply far longer than the requested max_length of 2
characters is returned untruncated. -/
theorem draft_post_returns_first_choice_verbatim_witness :
    draft_post_with_ai ⟨"launch of product X", 2⟩
      (fun _ => [⟨"Product X is here and it changes everything."⟩]) =
      Except.ok [("draft",
        JVal.str "Product X is here and it changes everything.")] :=
  draft_post_returns_first_choice_verbatim "launch of product X" 2
    (fun _ => [⟨"Product X is here and it changes everything."⟩])
    ⟨"Product X is here and it changes everything."⟩ [] rfl

/-- C6: a successful upload of a file named `f` writes exactly one new
object, to the configured bucket under key `f` with the uploaded body and
content type, and the response carries filename `f` and url equal to the
configured public base URL, a slash, and `f`. -/
theorem upload_success_key_and_url (cfg : R2Config) (store : List R2Object)
    (f : String) (b : List Nat) (ct : String) :
    ∃ resp,
      (upload_image_to_r2 cfg store f b ct PutOutcome.success).1 = Except.ok resp
      ∧ resp.lookup "filename" = some (JVal.str f)
      ∧ resp.lookup "url" = some (JVal.str (cfg.publicUrl ++ "/" ++ f))
      ∧ (upload_image_to_r2 cfg store f b ct PutOutcome.success).2 =
          store ++ [⟨cfg.bucket, f, b, ct⟩] := by
  exact ⟨_, rfl, rfl, rfl, rfl⟩

/-- C7: on upload, a missing-credentials error maps to a 500 with the
credentials-specific detail, any other exception maps to a 500 whose
detail is the generic prefix followed by the underlying message, and the
two details are never equal; both failures leave the store unchanged. -/
theorem upload_error_taxonomy (cfg : R2Config) (store : List R2Object)
    (f : String) (b : List Nat) (ct : String) (m : String) :
    upload_image_to_r2 cfg store f b ct PutOutcome.noCredentials =
      (Except.error ⟨500, "R2 credentials not available."⟩, store)
    ∧ upload_image_to_r2 cfg store f b ct (PutOutcome.failure m) =
        (Except.error ⟨500, "Failed to upload image: " ++ m⟩, store)
    ∧ "R2 credentials not available." ≠ "Failed to upload image: " ++ m := by
  refine ⟨rfl, rfl, fun h => ?_⟩
  have h2 := congrArg (fun t => t.data.head?) h
  simp [String.data_append] at h2

/-- C10: user-store handlers never modify the `posts` table and post-store
handlers never modify the `users` table; in particular deleting a User
leaves every Post row (including those authored by the deleted user)
unchanged — there is no cascade delete. -/
theorem store_ops_table_isolation (s : DBState) (u : UserCreate)
    (p : PostCreate) (uid pid : Nat) :
    (create_user s u).2.posts = s.posts
    ∧ (update_user s uid u).2.posts = s.posts
    ∧ (delete_user s uid).2.posts = s.posts
    ∧ (create_post s p).2.users = s.users
    ∧ (update_post s pid p).2.users = s.users
    ∧ (delete_post s pid).2.users = s.users := by
  refine ⟨?_, ?_, ?_, rfl, rfl, ?_⟩
  · by_cases hc : (s.users.any fun r => r.username == u.username || r.email == u.email) = true <;>
      simp [create_user, usersInsert, hc]
  · by_cases hc :
        (s.users.any fun r => !(r.id == uid) && (r.username == u.username || r.email == u.email)) = true <;>
      simp [update_user, usersUpdate, hc]
  · simp only [delete_user]
    split <;> rfl
  · simp only [delete_post]
    split <;> rfl

/-- C2: `GET /users/{id}` returns the stored User (through the `User`
response model) when a row with that id exists, and fails with HTTP 404
`User not found` when no such row exists. -/
theorem read_user_found_or_404 (s : DBState) (uid : Nat) :
    ((∃ r ∈ s.users, r.id = uid) →
      ∃ r, r ∈ s.users ∧ r.id = uid ∧
        read_user s uid = Except.ok
          [("username", JVal.str r.username), ("email", JVal.str r.email),
           ("id", JVal.num r.id)])
    ∧ ((∀ r ∈ s.users, r.id ≠ uid) →
        read_user s uid = Except.error ⟨404, "User not found"⟩) := by
  constructor
  · rintro ⟨r, hr, hid⟩
    cases hfind : s.users.find? (fun x => x.id == uid) with
    | none =>
        exact absurd (by simp [hid] : ((fun x : UserRow => x.id == uid) r) = true)
          (List.find?_eq_none.mp hfind r hr)
    | some x =>
        refine ⟨x, List.mem_of_find?_eq_some hfind, ?_, ?_⟩
        · simpa using List.find?_some hfind
        · simp [read_user, hfind, applyUserModel_row]
  · intro h
    have hnone : s.users.find? (fun x => x.id == uid) = none :=
      List.find?_eq_none.mpr (fun x hx => by simp [h x hx])
    simp [read_user, hnone]

/-- Witness for C2: both branches at concrete stores. -/
theorem read_user_found_or_404_witness :
    read_user ⟨[⟨1, "alice", "a@x.com", "pw"⟩], [], 2, 1, 0⟩ 1 =
      Except.ok [("username", JVal.str "alice"), ("email", JVal.str "a@x.com"),
                 ("id", JVal.num 1)]
    ∧ read_user ⟨[], [], 1, 1, 0⟩ 5 = Except.error ⟨404, "User not found"⟩ := by
  constructor
  · obtain ⟨r, hm, hid, he⟩ :=
      (read_user_found_or_404 ⟨[⟨1, "alice", "a@x.com", "pw"⟩], [], 2, 1, 0⟩ 1).1
        ⟨⟨1, "alice", "a@x.com", "pw"⟩, by simp, rfl⟩
    have hr : r = ⟨1, "alice", "a@x.com", "pw"⟩ := by simpa using hm
    subst hr
    exact he
  · exact (read_user_found_or_404 ⟨[], [], 1, 1, 0⟩ 5).2 (by simp)

/-- C3: `DELETE /users/{id}` fails with HTTP 404 exactly when no row has
the targeted id (no row affected), and then the whole database state is
unchanged; when a row with that id exists the handler returns the success
confirmation. -/
theorem delete_user_notfound_iff (s : DBState) (uid : Nat) :
    ((∀ r ∈ s.users, r.id ≠ uid) →
      delete_user s uid = (Except.error ⟨404, "User not found"⟩, s))
    ∧ ((∃ r ∈ s.users, r.id = uid) →
        (delete_user s uid).1 = Except.ok "User deleted successfully") := by
  constructor
  · intro h
    have hcount : s.users.countP (fun r => r.id == uid) = 0 :=
      List.countP_eq_zero.mpr (fun r hr => by simp [h r hr])
    have hfilter : s.users.filter (fun r => !(r.id == uid)) = s.users :=
      List.filter_eq_self.mpr (fun r hr => by simp [h r hr])
    simp [delete_user, hcount, hfilter]
  · rintro ⟨r, hr, hid⟩
    have hne : s.users.countP (fun x => x.id == uid) ≠ 0 := by
      intro h0
      exact absurd (by simp [hid] : ((fun x : UserRow => x.id == uid) r) = true)
        (List.countP_eq_zero.mp h0 r hr)
    simp [delete_user, hne]

/-- Witness for C3: both branches at concrete stores. -/
theorem delete_user_notfound_iff_witness :
    delete_user ⟨[], [], 1, 1, 0⟩ 7 =
      (Except.error ⟨404, "User not found"⟩, ⟨[], [], 1, 1, 0⟩)
    ∧ (delete_user ⟨[⟨2, "bob", "b@x.com", "pw"⟩], [], 3, 1, 0⟩ 2).1 =
        Except.ok "User deleted successfully" :=
  ⟨(delete_user_notfound_iff ⟨[], [], 1, 1, 0⟩ 7).1 (by simp),
   (delete_user_notfound_iff ⟨[⟨2, "bob", "b@x.com", "pw"⟩], [], 3, 1, 0⟩ 2).2
     ⟨⟨2, "bob", "b@x.com", "pw"⟩, by simp, rfl⟩⟩

/-- C5: `PUT /posts/{id}` modifies at most the rows whose id equals the
targeted id: every row at a position holding a different id is unchanged,
and no row is added or removed. -/
theorem update_post_frame (s : DBState) (pid : Nat) (p : PostCreate)
    (i : Nat) (r : PostRow)
    (h1 : s.posts[i]? = some r) (h2 : r.id ≠ pid) :
    (update_post s pid p).2.posts[i]? = some r
    ∧ (update_post s pid p).2.posts.length = s.posts.length := by
  constructor
  · simp only [update_post]
    simp [List.getElem?_map, h1, h2]
  · simp [update_post]

/-- Witness for C5: updating post 1 leaves the row of post 2 in place. -/
theorem update_post_frame_witness :
    (update_post ⟨[], [⟨1, 1, "a", none, 0⟩, ⟨2, 1, "b", none, 0⟩], 1, 3, 0⟩ 1
        ⟨"new", none, 9⟩).2.posts[1]? = some ⟨2, 1, "b", none, 0⟩
    ∧ (update_post ⟨[], [⟨1, 1, "a", none, 0⟩, ⟨2, 1, "b", none, 0⟩], 1, 3, 0⟩ 1
        ⟨"new", none, 9⟩).2.posts.length =
        ([⟨1, 1, "a", none, 0⟩, ⟨2, 1, "b", none, 0⟩] : List PostRow).length :=
  update_post_frame ⟨[], [⟨1, 1, "a", none, 0⟩, ⟨2, 1, "b", none, 0⟩], 1, 3, 0⟩ 1
    ⟨"new", none, 9⟩ 1 ⟨2, 1, "b", none, 0⟩ rfl (by decide)

/-- Counterexample to C4 as stated: when no Post row with the targeted id
exists, `PUT /posts/{id}` does not return an updated Post at all — the
handler's final `fetch_one` yields `None` (which the `response_model=Post`
declaration then fails to serialize), so no Post is returned. -/
theorem update_post_missing_row_cex :
    (update_post ⟨[], [], 1, 1, 0⟩ 1 ⟨"hello", none, 1⟩).1 = none
    ∧ ¬ ∃ r : PostRow,
        (update_post ⟨[], [], 1, 1, 0⟩ 1 ⟨"hello", none, 1⟩).1 = some r := by
  refine ⟨rfl, ?_⟩
  rintro ⟨r, hr⟩
  simp [update_post] at hr

/-- C4 amended: for every id such that a Post row with that id exists,
`PUT /posts/{id}` returns the updated Post — the stored row with that id
now carrying the new author_id, content and image_url, with its id and
creation timestamp preserved — and that row is in the resulting store. -/
theorem update_post_existing_returns_updated (s : DBState) (pid : Nat)
    (p : PostCreate) (r : PostRow)
    (h : s.posts.find? (fun x => x.id == pid) = some r) :
    (update_post s pid p).1 =
      some ⟨r.id, p.author_id, p.content, p.image_url, r.created_at⟩
    ∧ (⟨r.id, p.author_id, p.content, p.image_url, r.created_at⟩ : PostRow) ∈
        (update_post s pid p).2.posts := by
  have hfind : ((s.posts.map (fun x =>
      if x.id == pid then
        { x with author_id := p.author_id, content := p.content,
                 image_url := p.image_url } else x)).find?
        (fun x => x.id == pid))
      = some ⟨r.id, p.author_id, p.content, p.image_url, r.created_at⟩ := by
    rw [List.find?_map]
    have hcomp : ((fun x : PostRow => x.id == pid) ∘ (fun x : PostRow =>
        if x.id == pid then
          { x with author_id := p.author_id, content := p.content,
                   image_url := p.image_url } else x))
        = (fun x : PostRow => x.id == pid) := by
      funext x
      by_cases hx : (x.id == pid) = true <;> simp [Function.comp, hx]
    rw [hcomp, h]
    have hr : (r.id == pid) = true := by simpa using List.find?_some h
    simp [hr]
    intro hn
    exact absurd (by simpa using hr) hn
  constructor
  · simpa [update_post] using hfind
  · simpa [update_post] using List.mem_of_find?_eq_some hfind

/-- Witness for the amended C4 at a concrete one-row store. -/
theorem update_post_existing_returns_updated_witness :
    (update_post ⟨[], [⟨1, 2, "old", none, 5⟩], 1, 2, 9⟩ 1
        ⟨"new", some "u", 3⟩).1 = some ⟨1, 3, "new", some "u", 5⟩
    ∧ (⟨1, 3, "new", some "u", 5⟩ : PostRow) ∈
        (update_post ⟨[], [⟨1, 2, "old", none, 5⟩], 1, 2, 9⟩ 1
          ⟨"new", some "u", 3⟩).2.posts :=
  update_post_existing_returns_updated ⟨[], [⟨1, 2, "old", none, 5⟩], 1, 2, 9⟩ 1
    ⟨"new", some "u", 3⟩ ⟨1, 2, "old", none, 5⟩ rfl

/-- C8: whenever `POST /users/` succeeds, its response carries exactly the
`User` model fields username, email and id (in that order); the submitted
password is not part of the response, and the id is the newly assigned one. -/
theorem create_user_response_excludes_password (s : DBState) (u : UserCreate)
    (d : JDict) (s₂ : DBState)
    (h : create_user s u = (Except.ok d, s₂)) :
    d.map Prod.fst = ["username", "email", "id"]
    ∧ d.lookup "password" = none
    ∧ d.lookup "username" = some (JVal.str u.username)
    ∧ d.lookup "email" = some (JVal.str u.email)
    ∧ d.lookup "id" = some (JVal.num s.nextUserId) := by
  have hd : d = [("username", JVal.str u.username), ("email", JVal.str u.email),
                 ("id", JVal.num s.nextUserId)] := by
    by_cases hc :
        (s.users.any fun r => r.username == u.username || r.email == u.email) = true
    · simp [create_user, usersInsert, hc] at h
    · simp [create_user, usersInsert, hc, applyUserModel_raw] at h
      exact h.1.symm
  subst hd
  exact ⟨rfl, rfl, rfl, rfl, rfl⟩

/-- Witness for C8 at the empty store. -/
theorem create_user_response_excludes_password_witness :
    ([("username", JVal.str "alice"), ("email", JVal.str "a@x.com"),
      ("id", JVal.num 1)] : JDict).map Prod.fst = ["username", "email", "id"]
    ∧ ([("username", JVal.str "alice"), ("email", JVal.str "a@x.com"),
        ("id", JVal.num 1)] : JDict).lookup "password" = none
    ∧ ([("username", JVal.str "alice"), ("email", JVal.str "a@x.com"),
        ("id", JVal.num 1)] : JDict).lookup "username" = some (JVal.str "alice")
    ∧ ([("username", JVal.str "alice"), ("email", JVal.str "a@x.com"),
        ("id", JVal.num 1)] : JDict).lookup "email" = some (JVal.str "a@x.com")
    ∧ ([("username", JVal.str "alice"), ("email", JVal.str "a@x.com"),
        ("id", JVal.num 1)] : JDict).lookup "id" = some (JVal.num 1) :=
  create_user_response_excludes_password ⟨[], [], 1, 1, 0⟩ ⟨"alice", "a@x.com", "pw"⟩
    [("username", JVal.str "alice"), ("email", JVal.str "a@x.com"), ("id", JVal.num 1)]
    ⟨[⟨1, "alice", "a@x.com", "pw"⟩], [], 2, 1, 0⟩ rfl

/-- C1: when the autoincrement id is fresh and the submitted username and
email do not collide with an existing row, `POST /users/` succeeds, and
`GET /users/{id}` at the id carried by the create response returns a User
with the same username and email. -/
theorem create_then_fetch_roundtrip (s : DBState) (u : UserCreate)
    (hfresh : ∀ r ∈ s.users, r.id ≠ s.nextUserId)
    (huniq : ∀ r ∈ s.users, r.username ≠ u.username ∧ r.email ≠ u.email) :
    ∃ d s₂, create_user s u = (Except.ok d, s₂)
      ∧ d.lookup "id" = some (JVal.num s.nextUserId)
      ∧ d.lookup "username" = some (JVal.str u.username)
      ∧ d.lookup "email" = some (JVal.str u.email)
      ∧ read_user s₂ s.nextUserId =
          Except.ok [("username", JVal.str u.username),
                     ("email", JVal.str u.email),
                     ("id", JVal.num s.nextUserId)] := by
  have hc : (s.users.any fun r => r.username == u.username || r.email == u.email)
      = false := by
    rw [List.any_eq_false]
    intro r hr
    simp [(huniq r hr).1, (huniq r hr).2]
  refine ⟨[("username", JVal.str u.username), ("email", JVal.str u.email),
           ("id", JVal.num s.nextUserId)],
          { s with users := s.users ++ [⟨s.nextUserId, u.username, u.email, u.password⟩],
                   nextUserId := s.nextUserId + 1 },
          ?_, rfl, rfl, rfl, ?_⟩
  · simp [create_user, usersInsert, hc, applyUserModel_raw]
  · have hnone : s.users.find? (fun r => r.id == s.nextUserId) = none :=
      List.find?_eq_none.mpr (fun r hr => by simp [hfresh r hr])
    simp [read_user, List.find?_append, hnone, applyUserModel_row]

/-- Witness for C1 at the empty store. -/
theorem create_then_fetch_roundtrip_witness :
    ∃ d s₂,
      create_user ⟨[], [], 1, 1, 0⟩ ⟨"alice", "a@x.com", "pw"⟩ = (Except.ok d, s₂)
      ∧ d.lookup "id" = some (JVal.num 1)
      ∧ d.lookup "username" = some (JVal.str "alice")
      ∧ d.lookup "email" = some (JVal.str "a@x.com")
      ∧ read_user s₂ 1 =
          Except.ok [("username", JVal.str "alice"),
                     ("email", JVal.str "a@x.com"), ("id", JVal.num 1)] :=
  create_then_fetch_roundtrip ⟨[], [], 1, 1, 0⟩ ⟨"alice", "a@x.com", "pw"⟩
    (by simp) (by simp)
